import Mathlib

/-!
Verification of the convergence core of the `cloud-on-k8s` operator.

Part 1 embeds `pkg/controller/elasticsearch/remotecluster/annotations.go`:
the annotation-backed set-state tracker (`getRemoteClustersInAnnotation`,
`annotateWithCreatedRemoteClusters`).  Go strings are modelled as `List Char`,
Go maps as association lists with Go-map lookup/update semantics.

Part 2 models the Enterprise Search reconciler state machine.  Its
implementation is not part of the sources at hand (only its test is), so the
reconciler is modelled from the specification, faithful to the spec's state
machine (§4.5) and to the concrete expectations pinned by the test file.
-/

/-- A Go string, modelled as its list of characters. -/
abbrev GoStr := List Char

/-- Go map lookup `m[k]` on an association-list model of a Go map:
returns the value of the first (unique) matching key, `none` when absent. -/
def lookupKey {α β : Type} [DecidableEq α] : List (α × β) → α → Option β
  | [], _ => none
  | (k', v') :: rest, k => if k' = k then some v' else lookupKey rest k

/-- Go map update `m[k] = v` on an association-list model of a Go map:
replaces the value of an existing key in place, otherwise appends the entry. -/
def mapSet {α β : Type} [DecidableEq α] : List (α × β) → α → β → List (α × β)
  | [], k, v => [(k, v)]
  | (k', v') :: rest, k, v =>
      if k' = k then (k, v) :: rest else (k', v') :: mapSet rest k v

/-- Go `strings.Join(elems, ",")`: comma-joined concatenation. -/
def joinComma : List GoStr → GoStr
  | [] => []
  | s :: rest =>
    match rest with
    | [] => s
    | _ :: _ => s ++ ',' :: joinComma rest

/-- Go `strings.Split(s, ",")`: splits at every comma; the empty string
splits to the one-element list containing the empty string, exactly as in Go. -/
def splitComma : GoStr → List GoStr
  | [] => [[]]
  | c :: rest =>
    if c = ',' then [] :: splitComma rest
    else
      match splitComma rest with
      | [] => [[c]]
      | s :: ss => (c :: s) :: ss

/-- `ManagedRemoteClustersAnnotationName` holds the list of the remote
clusters which have been created (annotations.go line 17). -/
def ManagedRemoteClustersAnnotationName : GoStr :=
  "elasticsearch.k8s.elastic.co/managed-remote-clusters".toList

/-- The fields of an `esv1.Elasticsearch` resource the tracker touches.
`annotations` is `none` for a nil Go map, `some m` for an allocated map. -/
structure Elasticsearch where
  ns : GoStr
  name : GoStr
  annotations : Option (List (GoStr × GoStr))
deriving DecidableEq

/-- Lookup `es.Annotations[k]`: a nil map behaves as an empty one. -/
def annLookup (es : Elasticsearch) (k : GoStr) : Option GoStr :=
  lookupKey (es.annotations.getD []) k

/-- Embeds `getRemoteClustersInAnnotation` (annotations.go lines 23-33): returns the
set of remote clusters serialized in the annotation; empty, never nil, when
the annotation is absent. -/
def getRemoteClustersInAnn (es : Elasticsearch) : Finset GoStr :=
  match annLookup es ManagedRemoteClustersAnnotationName with
  | none => ∅
  | some serializedRemoteClusters => (splitComma serializedRemoteClusters).toFinset

/-- `annotateWithCreatedRemoteClusters` (annotations.go lines 35-46): allocates
the annotations map if nil, serializes the remote-cluster set sorted and
comma-joined into the annotation, and returns the object handed to
`c.Update`.  The Go argument is a `map[string]struct{}`; its arbitrary
iteration order is modelled by taking the members as a list. -/
def annotateWithCreatedRemoteClusters (es : Elasticsearch)
    (remoteClusters : List GoStr) : Elasticsearch :=
  let anns := es.annotations.getD []
  let sortedClusters := remoteClusters.insertionSort (· ≤ ·)
  { es with
    annotations :=
      some (mapSet anns ManagedRemoteClustersAnnotationName (joinComma sortedClusters)) }

-- Helper lemmas on the Go-map model

theorem lookupKey_mapSet_self {α β : Type} [DecidableEq α]
    (m : List (α × β)) (k : α) (v : β) : lookupKey (mapSet m k v) k = some v := by
  induction m with
  | nil => simp [mapSet, lookupKey]
  | cons p rest ih =>
    obtain ⟨k', v'⟩ := p
    by_cases h : k' = k
    · simp [mapSet, lookupKey, h]
    · simp [mapSet, lookupKey, h, ih]

theorem lookupKey_mapSet_ne {α β : Type} [DecidableEq α]
    (m : List (α × β)) (k k' : α) (v : β) (h : k' ≠ k) :
    lookupKey (mapSet m k v) k' = lookupKey m k' := by
  have hk : ¬ k = k' := fun hh => h hh.symm
  induction m with
  | nil => simp [mapSet, lookupKey, hk]
  | cons p rest ih =>
    obtain ⟨k₀, v₀⟩ := p
    simp only [mapSet, lookupKey]
    by_cases h₀ : k₀ = k
    · simp [h₀, hk, lookupKey]
    · simp [h₀, lookupKey, ih]

-- Helper lemmas on split/join

theorem splitComma_ne_nil (s : GoStr) : splitComma s ≠ [] := by
  induction s with
  | nil => simp [splitComma]
  | cons c rest ih =>
    by_cases h : c = ','
    · simp [splitComma, h]
    · simp only [splitComma, h, if_false]
      cases hs : splitComma rest with
      | nil => simp
      | cons s ss => simp

theorem splitComma_no_comma (s : GoStr) (h : ',' ∉ s) : splitComma s = [s] := by
  induction s with
  | nil => simp [splitComma]
  | cons c rest ih =>
    simp only [List.mem_cons, not_or] at h
    have hc : ¬ c = ',' := fun hh => h.1 hh.symm
    simp [splitComma, hc, ih h.2]

theorem splitComma_append (s t : GoStr) (h : ',' ∉ s) :
    splitComma (s ++ ',' :: t) = s :: splitComma t := by
  induction s with
  | nil => simp [splitComma]
  | cons c rest ih =>
    simp only [List.mem_cons, not_or] at h
    have hc : ¬ c = ',' := fun hh => h.1 hh.symm
    simp [splitComma, hc, ih h.2]

theorem splitComma_joinComma (ss : List GoStr) (hne : ss ≠ [])
    (h : ∀ s ∈ ss, ',' ∉ s) : splitComma (joinComma ss) = ss := by
  induction ss with
  | nil => exact absurd rfl hne
  | cons s rest ih =>
    cases rest with
    | nil =>
      simp only [joinComma]
      exact splitComma_no_comma s (h s (by simp))
    | cons s' rest' =>
      have hs : ',' ∉ s := h s (by simp)
      have hrest : ∀ x ∈ s' :: rest', ',' ∉ x := fun x hx => h x (by simp [hx])
      have hj : joinComma (s :: s' :: rest') = s ++ ',' :: joinComma (s' :: rest') := rfl
      rw [hj, splitComma_append s _ hs, ih (by simp) hrest]

-- Examples exercising the model on concrete inputs
example : splitComma "a,b".toList = ["a".toList, "b".toList] := by decide
example : splitComma [] = [[]] := by decide
example : joinComma [] = [] := by decide

/-- C1 counterexample: the write-then-read round trip fails at the empty set
(the stored value is the empty string, which `strings.Split` parses back to
the singleton set holding the empty identifier), and at a set whose single
member contains a comma. -/
theorem roundtrip_fails_on_empty_set :
    getRemoteClustersInAnn
        (annotateWithCreatedRemoteClusters ⟨"ns".toList, "es".toList, none⟩ []) ≠
      ([] : List GoStr).toFinset
    ∧ getRemoteClustersInAnn
        (annotateWithCreatedRemoteClusters ⟨"ns".toList, "es".toList, none⟩
          ["a,b".toList]) ≠
      (["a,b".toList] : List GoStr).toFinset := by
  constructor
  · decide
  · decide

/-- C1 (amended): for every nonempty, duplicate-free list of comma-free
identifiers, writing with `annotateWithCreatedRemoteClusters` and reading
back with `getRemoteClustersInAnn` returns the same set, the stored
value is the lexicographically sorted comma-joined form, and any two
representations of the same set (any insertion order) produce the identical
updated resource. -/
theorem annotate_then_get_roundtrip_canonical (es : Elasticsearch)
    (l₁ l₂ : List GoStr) (h₁ : l₁.Nodup) (h₂ : l₂.Nodup) (hne : l₁ ≠ [])
    (hc : ∀ s ∈ l₁, ',' ∉ s) (hset : l₁.toFinset = l₂.toFinset) :
    getRemoteClustersInAnn (annotateWithCreatedRemoteClusters es l₁) =
      l₁.toFinset
    ∧ annLookup (annotateWithCreatedRemoteClusters es l₁)
        ManagedRemoteClustersAnnotationName =
      some (joinComma (l₁.insertionSort (· ≤ ·)))
    ∧ annotateWithCreatedRemoteClusters es l₁ =
      annotateWithCreatedRemoteClusters es l₂ := by
  have hperm : List.Perm (l₁.insertionSort (· ≤ ·)) l₁ :=
    List.perm_insertionSort _ l₁
  have hlookup : annLookup (annotateWithCreatedRemoteClusters es l₁)
      ManagedRemoteClustersAnnotationName =
      some (joinComma (l₁.insertionSort (· ≤ ·))) := by
    simp [annotateWithCreatedRemoteClusters, annLookup, lookupKey_mapSet_self]
  refine ⟨?_, hlookup, ?_⟩
  · have hsne : l₁.insertionSort (· ≤ ·) ≠ [] := by
      intro hnil
      rw [hnil] at hperm
      exact hne hperm.symm.eq_nil
    have hsc : ∀ s ∈ l₁.insertionSort (· ≤ ·), ',' ∉ s := fun s hs =>
      hc s (hperm.mem_iff.mp hs)
    rw [getRemoteClustersInAnn, hlookup]
    show (splitComma (joinComma (l₁.insertionSort (· ≤ ·)))).toFinset = l₁.toFinset
    rw [splitComma_joinComma _ hsne hsc]
    exact List.toFinset_eq_of_perm _ _ hperm
  · have hp : List.Perm l₁ l₂ := List.perm_of_nodup_nodup_toFinset_eq h₁ h₂ hset
    have hsorteq : l₁.insertionSort (· ≤ ·) = l₂.insertionSort (· ≤ ·) := by
      refine List.eq_of_perm_of_sorted
        (hperm.trans (hp.trans (List.perm_insertionSort _ l₂).symm))
        (List.sorted_insertionSort _ l₁) (List.sorted_insertionSort _ l₂)
    simp [annotateWithCreatedRemoteClusters, hsorteq]

/-- C1 witness: the amended round trip at a concrete two-element set given
in two different insertion orders. -/
theorem annotate_then_get_roundtrip_canonical_witness :
    getRemoteClustersInAnn
        (annotateWithCreatedRemoteClusters ⟨"ns".toList, "es".toList, none⟩
          ["b".toList, "a".toList]) =
      (["b".toList, "a".toList] : List GoStr).toFinset
    ∧ annLookup
        (annotateWithCreatedRemoteClusters ⟨"ns".toList, "es".toList, none⟩
          ["b".toList, "a".toList])
        ManagedRemoteClustersAnnotationName =
      some (joinComma ((["b".toList, "a".toList] : List GoStr).insertionSort (· ≤ ·)))
    ∧ annotateWithCreatedRemoteClusters ⟨"ns".toList, "es".toList, none⟩
        ["b".toList, "a".toList] =
      annotateWithCreatedRemoteClusters ⟨"ns".toList, "es".toList, none⟩
        ["a".toList, "b".toList] :=
  annotate_then_get_roundtrip_canonical ⟨"ns".toList, "es".toList, none⟩
    ["b".toList, "a".toList] ["a".toList, "b".toList]
    (by decide) (by decide) (by decide) (by decide) (by decide)

/-- C8: when the managed-remote-clusters annotation key is absent,
`getRemoteClustersInAnn` returns the empty set (the Go function
allocates and returns an empty, never nil, map). -/
theorem getRemoteClusters_empty_when_absent (es : Elasticsearch)
    (h : annLookup es ManagedRemoteClustersAnnotationName = none) :
    getRemoteClustersInAnn es = ∅ := by
  rw [getRemoteClustersInAnn, h]

/-- C8 witness: a resource with a nil annotations map. -/
theorem getRemoteClusters_empty_when_absent_witness :
    annLookup ⟨"ns".toList, "es".toList, none⟩
        ManagedRemoteClustersAnnotationName = none
    ∧ getRemoteClustersInAnn ⟨"ns".toList, "es".toList, none⟩ = ∅ :=
  ⟨by decide, getRemoteClusters_empty_when_absent _ (by decide)⟩

/-- C10: `annotateWithCreatedRemoteClusters` only touches the
managed-remote-clusters annotation key of the object it hands to `Update`:
name and namespace are unchanged, every other annotation key keeps its
value, and a nil annotations map is replaced by an allocated one. -/
theorem annotateWithCreatedRemoteClusters_frame (es : Elasticsearch)
    (l : List GoStr) (k : GoStr)
    (hk : k ≠ ManagedRemoteClustersAnnotationName) :
    (annotateWithCreatedRemoteClusters es l).name = es.name
    ∧ (annotateWithCreatedRemoteClusters es l).ns = es.ns
    ∧ (annotateWithCreatedRemoteClusters es l).annotations.isSome = true
    ∧ annLookup (annotateWithCreatedRemoteClusters es l) k = annLookup es k := by
  refine ⟨rfl, rfl, rfl, ?_⟩
  simp only [annotateWithCreatedRemoteClusters, annLookup, Option.getD_some]
  exact lookupKey_mapSet_ne _ _ _ _ hk

/-- C10 witness: an unrelated annotation key is preserved through the write. -/
theorem annotateWithCreatedRemoteClusters_frame_witness :
    "other".toList ≠ ManagedRemoteClustersAnnotationName
    ∧ ((annotateWithCreatedRemoteClusters
          ⟨"ns".toList, "es".toList, some [("other".toList, "v".toList)]⟩
          ["a".toList]).name =
        (Elasticsearch.mk "ns".toList "es".toList
          (some [("other".toList, "v".toList)])).name
      ∧ (annotateWithCreatedRemoteClusters
          ⟨"ns".toList, "es".toList, some [("other".toList, "v".toList)]⟩
          ["a".toList]).ns =
        (Elasticsearch.mk "ns".toList "es".toList
          (some [("other".toList, "v".toList)])).ns
      ∧ (annotateWithCreatedRemoteClusters
          ⟨"ns".toList, "es".toList, some [("other".toList, "v".toList)]⟩
          ["a".toList]).annotations.isSome = true
      ∧ annLookup (annotateWithCreatedRemoteClusters
          ⟨"ns".toList, "es".toList, some [("other".toList, "v".toList)]⟩
          ["a".toList]) "other".toList =
        annLookup ⟨"ns".toList, "es".toList,
          some [("other".toList, "v".toList)]⟩ "other".toList) :=
  ⟨by decide,
    annotateWithCreatedRemoteClusters_frame
      ⟨"ns".toList, "es".toList, some [("other".toList, "v".toList)]⟩
      ["a".toList] "other".toList (by decide)⟩

/-!
Part 2: the Enterprise Search reconciler.  The reconciler implementation is
not among the sources at hand (only its test file is), so every definition
below is modelled from the specification's state machine and data model,
pinned to the concrete expectations of the reconciler test
(`TestReconcileEnterpriseSearch_Reconcile_*`).
-/

/-- Modelled from the spec: deterministic dependent-resource names computed
as the owner name followed by fixed per-kind parts (§6); the name-helper
package is absent from the sources, the concrete values are pinned by the
reconciler test ("sample-ent-http", "sample-ent-config", "sample-ent", ...). -/
def dependentName (ownerName : String) (parts : List String) : String :=
  ownerName ++ "-" ++ String.intercalate "-" ("ent" :: parts)

/-- Modelled from the spec: name of the network endpoint (HTTP service). -/
def httpServiceName (ownerName : String) : String :=
  dependentName ownerName ["http"]

/-- Modelled from the spec: name of the internal CA secret. -/
def caSecretName (ownerName : String) : String :=
  dependentName ownerName ["http", "ca-internal"]

/-- Modelled from the spec: name of the internal TLS certificate secret. -/
def internalCertsSecretName (ownerName : String) : String :=
  dependentName ownerName ["http", "certs-internal"]

/-- Modelled from the spec: name of the public TLS certificate secret. -/
def publicCertsSecretName (ownerName : String) : String :=
  dependentName ownerName ["http", "certs-public"]

/-- Modelled from the spec: name of the configuration bundle secret. -/
def configSecretName (ownerName : String) : String :=
  dependentName ownerName ["config"]

/-- Modelled from the spec: name of the workload deployment. -/
def deploymentName (ownerName : String) : String :=
  dependentName ownerName []

/-- Modelled from the spec: the "managed=false" marker annotation key. -/
def managedAnnKey : String := "eck.k8s.elastic.co/managed"

/-- Modelled from the spec: the controller-version provenance annotation key. -/
def controllerVersionAnnKey : String := "common.k8s.elastic.co/controller-version"

/-- Modelled from the spec: the pod-template label carrying the
configuration-bundle content hash. -/
def configHashLabelKey : String := "enterprisesearch.k8s.elastic.co/config-hash"

/-- Modelled from the spec: the well-known HTTP port of the network endpoint
(3002, pinned by the reconciler test). -/
def entHTTPPort : Nat := 3002

/-- Modelled from the spec: the user-authored spec of the owner resource
(version, replica count, optional backend reference, referenced secrets). -/
structure EntSpec where
  version : String
  count : Nat
  elasticsearchRef : Option (String × String)
  configRefSecrets : List String
deriving DecidableEq

/-- Modelled from the spec: the owner custom resource.  `associationResolved`
is the Association Resolver collaborator's verdict on the backend reference. -/
structure EnterpriseSearch where
  ns : String
  name : String
  annotations : List (String × String)
  spec : EntSpec
  associationResolved : Bool
deriving DecidableEq

/-- Modelled from the spec: the network endpoint dependent. -/
structure ServiceObj where
  name : String
  port : Nat
deriving DecidableEq

/-- Modelled from the spec: an opaque secret dependent (CA, certs, config). -/
structure SecretObj where
  name : String
  data : List (String × String)
deriving DecidableEq

/-- Modelled from the spec: the workload deployment dependent with replica
count and pod-template labels. -/
structure DeploymentObj where
  name : String
  replicas : Nat
  podTemplateLabels : List (String × String)
deriving DecidableEq

/-- Modelled from the spec: the rendered configuration bundle, a structured
text document containing at minimum an `external_url` field and fields
derived from the resolved association (§6). -/
def configContent (ent : EnterpriseSearch) : String :=
  "external_url: https://localhost:3002\n"
    ++ "ent_search.version: " ++ ent.spec.version ++ "\n"
    ++ match ent.spec.elasticsearchRef with
       | none => ""
       | some _ => "elasticsearch.host: https://elasticsearch\n"

/-- Modelled from the spec: deterministic content hash of the rendered
configuration bundle, recomputed identically for identical logical inputs. -/
def configHash (content : String) : String :=
  toString (content.toList.foldl (fun h c => (h * 31 + c.toNat) % 1000003) 7)

/-- Modelled from the spec: desired network endpoint for an owner. -/
def desiredService (ent : EnterpriseSearch) : ServiceObj :=
  ⟨httpServiceName ent.name, entHTTPPort⟩

/-- Modelled from the spec: desired internal CA secret (non-empty CA material
issued by the certificate manager). -/
def desiredCASecret (ent : EnterpriseSearch) : SecretObj :=
  ⟨caSecretName ent.name,
    [("tls.crt", "ca-cert-" ++ ent.name), ("tls.key", "ca-key-" ++ ent.name)]⟩

/-- Modelled from the spec: desired internal TLS certificate secret. -/
def desiredInternalCertsSecret (ent : EnterpriseSearch) : SecretObj :=
  ⟨internalCertsSecretName ent.name,
    [("tls.crt", "leaf-cert-" ++ ent.name), ("tls.key", "leaf-key-" ++ ent.name),
      ("ca.crt", "ca-cert-" ++ ent.name)]⟩

/-- Modelled from the spec: desired public TLS certificate secret. -/
def desiredPublicCertsSecret (ent : EnterpriseSearch) : SecretObj :=
  ⟨publicCertsSecretName ent.name,
    [("tls.crt", "leaf-cert-" ++ ent.name), ("ca.crt", "ca-cert-" ++ ent.name)]⟩

/-- Modelled from the spec: desired configuration bundle secret. -/
def desiredConfigSecret (ent : EnterpriseSearch) : SecretObj :=
  ⟨configSecretName ent.name, [("enterprise-search.yml", configContent ent)]⟩

/-- Modelled from the spec: desired workload deployment, embedding the
replica count and the configuration-hash pod-template label. -/
def desiredDeployment (ent : EnterpriseSearch) : DeploymentObj :=
  ⟨deploymentName ent.name, ent.spec.count,
    [(configHashLabelKey, configHash (configContent ent))]⟩

/-- Modelled from the spec: the earliest certificate-rotation deadline
(not-after minus a safety margin), always a positive duration, returned as
the requeue-after of a successful converging pass (§4.5 step 8). -/
def certRotationRequeue : Nat := 8760

/-- Modelled from the spec: the fixed warning event recorded when the
backend association is not yet configured. -/
def associationErrorEvent : String :=
  "Warning AssociationError Elasticsearch backend is not configured"

/-- Modelled from the spec: the validation error message for a missing
version, carrying the offending field path. -/
def validationErrMsg : String := "spec.version: Invalid value"

/-- Modelled from the spec: the warning event recorded for a validation
failure, carrying the validation message. -/
def reconciliationErrorEvent (msg : String) : String :=
  "Warning ReconciliationError " ++ msg

/-- Modelled from the spec: the cluster-side state one reconcile pass reads
and writes: the owner resource, its dependent objects (absent or present),
and the owner's active watch registrations. -/
structure ClusterState where
  owner : Option EnterpriseSearch
  service : Option ServiceObj
  caSecret : Option SecretObj
  internalCertsSecret : Option SecretObj
  publicCertsSecret : Option SecretObj
  configSecret : Option SecretObj
  deployment : Option DeploymentObj
  watches : List String
deriving DecidableEq

/-- Modelled from the spec: what one invocation of the reconcile entry point
produces: the resulting cluster state, the requeue-after duration (0 = no
requeue), the surfaced error, the recorded events and the number of writes
issued against platform storage. -/
structure ReconcileOutcome where
  state : ClusterState
  requeueAfter : Nat
  error : Option String
  events : List String
  writes : Nat
deriving DecidableEq

/-- Modelled from the spec: stamp the controller-version annotation (§4.5
step 4): update the owner, counting one write, exactly when it differs. -/
def stampVersion (opVersion : String) (ent : EnterpriseSearch) :
    EnterpriseSearch × Nat :=
  if lookupKey ent.annotations controllerVersionAnnKey = some opVersion then
    (ent, 0)
  else
    ({ ent with
        annotations := mapSet ent.annotations controllerVersionAnnKey opVersion },
      1)

/-- Modelled from the spec: converge one dependent (§4.3): create when
absent, correct when drifted, leave alone (zero writes) when it already is
the desired object. -/
def convergeDependent {α : Type} [DecidableEq α] (actual : Option α)
    (desired : α) : α × Nat :=
  match actual with
  | none => (desired, 1)
  | some a => if a = desired then (a, 0) else (desired, 1)

/-- Modelled from the spec: the reconciler state machine (§4.5): fetch,
unmanaged check, validation, controller-version stamp, association check,
dependent convergence in fixed order, watch recomputation, scheduling. -/
def reconcile (opVersion : String) (s : ClusterState) : ReconcileOutcome :=
  match s.owner with
  | none =>
    { state := { s with watches := [] }, requeueAfter := 0, error := none,
      events := [], writes := 0 }
  | some ent =>
    if lookupKey ent.annotations managedAnnKey = some "false" then
      { state := s, requeueAfter := 0, error := none, events := [], writes := 0 }
    else if ent.spec.version = "" then
      { state := s, requeueAfter := 0, error := some validationErrMsg,
        events := [reconciliationErrorEvent validationErrMsg], writes := 0 }
    else if ent.spec.elasticsearchRef ≠ none ∧ ent.associationResolved = false then
      { state := { s with owner := some (stampVersion opVersion ent).1 },
        requeueAfter := 0, error := none, events := [associationErrorEvent],
        writes := (stampVersion opVersion ent).2 }
    else
      { state :=
          { s with
            owner := some (stampVersion opVersion ent).1,
            service := some (convergeDependent s.service (desiredService ent)).1,
            caSecret := some (convergeDependent s.caSecret (desiredCASecret ent)).1,
            internalCertsSecret :=
              some (convergeDependent s.internalCertsSecret
                (desiredInternalCertsSecret ent)).1,
            publicCertsSecret :=
              some (convergeDependent s.publicCertsSecret
                (desiredPublicCertsSecret ent)).1,
            configSecret :=
              some (convergeDependent s.configSecret (desiredConfigSecret ent)).1,
            deployment :=
              some (convergeDependent s.deployment (desiredDeployment ent)).1,
            watches := ent.spec.configRefSecrets },
        requeueAfter := certRotationRequeue,
        error := none,
        events := [],
        writes := (stampVersion opVersion ent).2
          + (convergeDependent s.service (desiredService ent)).2
          + (convergeDependent s.caSecret (desiredCASecret ent)).2
          + (convergeDependent s.internalCertsSecret
              (desiredInternalCertsSecret ent)).2
          + (convergeDependent s.publicCertsSecret
              (desiredPublicCertsSecret ent)).2
          + (convergeDependent s.configSecret (desiredConfigSecret ent)).2
          + (convergeDependent s.deployment (desiredDeployment ent)).2 }

-- Helper lemmas on the reconciler model

theorem convergeDependent_fst {α : Type} [DecidableEq α] (actual : Option α)
    (desired : α) : (convergeDependent actual desired).1 = desired := by
  cases actual with
  | none => rfl
  | some a =>
    by_cases h : a = desired
    · simp [convergeDependent, h]
    · simp [convergeDependent, h]

theorem convergeDependent_self {α : Type} [DecidableEq α] (desired : α) :
    convergeDependent (some desired) desired = (desired, 0) := by
  simp [convergeDependent]

theorem stampVersion_fst_cv (opVersion : String) (ent : EnterpriseSearch) :
    lookupKey ((stampVersion opVersion ent).1).annotations controllerVersionAnnKey =
      some opVersion := by
  rw [stampVersion]
  by_cases hcv : lookupKey ent.annotations controllerVersionAnnKey = some opVersion
  · rw [if_pos hcv]
    exact hcv
  · rw [if_neg hcv]
    exact lookupKey_mapSet_self _ _ _

theorem stampVersion_idem (opVersion : String) (ent : EnterpriseSearch) :
    stampVersion opVersion ((stampVersion opVersion ent).1) =
      ((stampVersion opVersion ent).1, 0) := by
  rw [stampVersion, if_pos (stampVersion_fst_cv opVersion ent)]

theorem stampVersion_fst_spec (opVersion : String) (ent : EnterpriseSearch) :
    ((stampVersion opVersion ent).1).spec = ent.spec := by
  rw [stampVersion]
  split <;> rfl

theorem stampVersion_fst_name (opVersion : String) (ent : EnterpriseSearch) :
    ((stampVersion opVersion ent).1).name = ent.name := by
  rw [stampVersion]
  split <;> rfl

theorem stampVersion_fst_assoc (opVersion : String) (ent : EnterpriseSearch) :
    ((stampVersion opVersion ent).1).associationResolved =
      ent.associationResolved := by
  rw [stampVersion]
  split <;> rfl

theorem stampVersion_fst_managed (opVersion : String) (ent : EnterpriseSearch) :
    lookupKey ((stampVersion opVersion ent).1).annotations managedAnnKey =
      lookupKey ent.annotations managedAnnKey := by
  rw [stampVersion]
  split
  · rfl
  · exact lookupKey_mapSet_ne _ _ _ _ (by decide)

theorem desired_after_stamp (opVersion : String) (ent : EnterpriseSearch) :
    desiredService ((stampVersion opVersion ent).1) = desiredService ent
    ∧ desiredCASecret ((stampVersion opVersion ent).1) = desiredCASecret ent
    ∧ desiredInternalCertsSecret ((stampVersion opVersion ent).1) =
        desiredInternalCertsSecret ent
    ∧ desiredPublicCertsSecret ((stampVersion opVersion ent).1) =
        desiredPublicCertsSecret ent
    ∧ desiredConfigSecret ((stampVersion opVersion ent).1) = desiredConfigSecret ent
    ∧ desiredDeployment ((stampVersion opVersion ent).1) = desiredDeployment ent := by
  rw [stampVersion]
  split <;> exact ⟨rfl, rfl, rfl, rfl, rfl, rfl⟩

/-- Outcome of the main (converging) path of the state machine, shared by
the idempotence and drift-healing proofs. -/
theorem reconcile_main_path (opVersion : String) (s : ClusterState)
    (ent : EnterpriseSearch) (h : s.owner = some ent)
    (hm : ¬ lookupKey ent.annotations managedAnnKey = some "false")
    (hv : ¬ ent.spec.version = "")
    (ha : ¬ (ent.spec.elasticsearchRef ≠ none ∧ ent.associationResolved = false)) :
    reconcile opVersion s =
      { state :=
          { owner := some (stampVersion opVersion ent).1,
            service := some (desiredService ent),
            caSecret := some (desiredCASecret ent),
            internalCertsSecret := some (desiredInternalCertsSecret ent),
            publicCertsSecret := some (desiredPublicCertsSecret ent),
            configSecret := some (desiredConfigSecret ent),
            deployment := some (desiredDeployment ent),
            watches := ent.spec.configRefSecrets },
        requeueAfter := certRotationRequeue,
        error := none,
        events := [],
        writes := (stampVersion opVersion ent).2
          + (convergeDependent s.service (desiredService ent)).2
          + (convergeDependent s.caSecret (desiredCASecret ent)).2
          + (convergeDependent s.internalCertsSecret
              (desiredInternalCertsSecret ent)).2
          + (convergeDependent s.publicCertsSecret
              (desiredPublicCertsSecret ent)).2
          + (convergeDependent s.configSecret (desiredConfigSecret ent)).2
          + (convergeDependent s.deployment (desiredDeployment ent)).2 } := by
  obtain ⟨ow, sv, ca, ic, pc, cf, dp, ws⟩ := s
  simp only [ClusterState.owner] at h
  subst h
  simp only [reconcile]
  rw [if_neg hm, if_neg hv, if_neg ha]
  simp only [convergeDependent_fst]

/-- Outcome of the association-unresolved path of the state machine. -/
theorem reconcile_assoc_path (opVersion : String) (s : ClusterState)
    (ent : EnterpriseSearch) (h : s.owner = some ent)
    (hm : ¬ lookupKey ent.annotations managedAnnKey = some "false")
    (hv : ¬ ent.spec.version = "")
    (ha : ent.spec.elasticsearchRef ≠ none ∧ ent.associationResolved = false) :
    reconcile opVersion s =
      { state := { s with owner := some (stampVersion opVersion ent).1 },
        requeueAfter := 0, error := none, events := [associationErrorEvent],
        writes := (stampVersion opVersion ent).2 } := by
  obtain ⟨ow, sv, ca, ic, pc, cf, dp, ws⟩ := s
  simp only [ClusterState.owner] at h
  subst h
  simp only [reconcile]
  rw [if_neg hm, if_neg hv, if_pos ha]

/-- C5: reconciling an identity whose backing resource does not exist clears
every watch registration of that identity and returns no error, no requeue. -/
theorem reconcile_not_found (opVersion : String) (s : ClusterState)
    (h : s.owner = none) :
    (reconcile opVersion s).state.watches = []
    ∧ (reconcile opVersion s).error = none
    ∧ (reconcile opVersion s).requeueAfter = 0 := by
  obtain ⟨ow, sv, ca, ic, pc, cf, dp, ws⟩ := s
  simp only [ClusterState.owner] at h
  subst h
  exact ⟨rfl, rfl, rfl⟩

/-- C5 witness: two pre-existing watch registrations are cleared when the
owner is absent. -/
theorem reconcile_not_found_witness :
    (reconcile "v1"
        ⟨none, none, none, none, none, none, none,
          ["watched-secret", "user-tls-secret"]⟩).state.watches = []
    ∧ (reconcile "v1"
        ⟨none, none, none, none, none, none, none,
          ["watched-secret", "user-tls-secret"]⟩).error = none
    ∧ (reconcile "v1"
        ⟨none, none, none, none, none, none, none,
          ["watched-secret", "user-tls-secret"]⟩).requeueAfter = 0 :=
  reconcile_not_found "v1"
    ⟨none, none, none, none, none, none, none,
      ["watched-secret", "user-tls-secret"]⟩ rfl

/-- C6: a spec referencing a backend whose association is not resolvable
records exactly one warning event with the fixed message and returns no
requeue and no error. -/
theorem reconcile_association_unresolved (opVersion : String)
    (s : ClusterState) (ent : EnterpriseSearch) (h : s.owner = some ent)
    (hm : ¬ lookupKey ent.annotations managedAnnKey = some "false")
    (hv : ¬ ent.spec.version = "")
    (href : ent.spec.elasticsearchRef ≠ none)
    (hres : ent.associationResolved = false) :
    (reconcile opVersion s).events = [associationErrorEvent]
    ∧ (reconcile opVersion s).error = none
    ∧ (reconcile opVersion s).requeueAfter = 0 := by
  rw [reconcile_assoc_path opVersion s ent h hm hv ⟨href, hres⟩]
  exact ⟨rfl, rfl, rfl⟩

/-- C6 witness: the unresolved-association scenario of the test. -/
theorem reconcile_association_unresolved_witness :
    (reconcile "v1"
        ⟨some ⟨"ns", "sample", [], ⟨"7.7.0", 1, some ("ns", "es"), []⟩, false⟩,
          none, none, none, none, none, none, []⟩).events = [associationErrorEvent]
    ∧ (reconcile "v1"
        ⟨some ⟨"ns", "sample", [], ⟨"7.7.0", 1, some ("ns", "es"), []⟩, false⟩,
          none, none, none, none, none, none, []⟩).error = none
    ∧ (reconcile "v1"
        ⟨some ⟨"ns", "sample", [], ⟨"7.7.0", 1, some ("ns", "es"), []⟩, false⟩,
          none, none, none, none, none, none, []⟩).requeueAfter = 0 :=
  reconcile_association_unresolved "v1"
    ⟨some ⟨"ns", "sample", [], ⟨"7.7.0", 1, some ("ns", "es"), []⟩, false⟩,
      none, none, none, none, none, none, []⟩
    ⟨"ns", "sample", [], ⟨"7.7.0", 1, some ("ns", "es"), []⟩, false⟩
    rfl (by decide) (by decide) (by decide) rfl

/-- C7: a spec missing the required version yields an error carrying the
field path, a matching warning event, no writes and no state change; and
the validation path is the only path of the state machine that surfaces an
error to the caller. -/
theorem reconcile_invalid_version (opVersion : String) (s : ClusterState)
    (ent : EnterpriseSearch) (h : s.owner = some ent)
    (hm : ¬ lookupKey ent.annotations managedAnnKey = some "false")
    (hv : ent.spec.version = "") :
    (reconcile opVersion s).error = some validationErrMsg
    ∧ List.IsInfix "spec.version".toList validationErrMsg.toList
    ∧ (reconcile opVersion s).events = [reconciliationErrorEvent validationErrMsg]
    ∧ List.IsInfix validationErrMsg.toList
        (reconciliationErrorEvent validationErrMsg).toList
    ∧ (reconcile opVersion s).writes = 0
    ∧ (reconcile opVersion s).state = s
    ∧ (∀ opV' s', (reconcile opV' s').error ≠ none →
        ∃ e, s'.owner = some e
          ∧ ¬ lookupKey e.annotations managedAnnKey = some "false"
          ∧ e.spec.version = "") := by
  obtain ⟨ow, sv, ca, ic, pc, cf, dp, ws⟩ := s
  simp only [ClusterState.owner] at h
  subst h
  refine ⟨?_, by decide, ?_, by decide, ?_, ?_, ?_⟩
  · simp [reconcile, hm, hv]
  · simp [reconcile, hm, hv]
  · simp [reconcile, hm, hv]
  · simp [reconcile, hm, hv]
  · intro opV' s' herr
    obtain ⟨ow', sv', ca', ic', pc', cf', dp', ws'⟩ := s'
    cases ow' with
    | none => simp [reconcile] at herr
    | some e =>
      refine ⟨e, rfl, ?_⟩
      by_cases h₁ : lookupKey e.annotations managedAnnKey = some "false"
      · exfalso
        simp [reconcile, h₁] at herr
      · by_cases h₂ : e.spec.version = ""
        · exact ⟨h₁, h₂⟩
        · exfalso
          by_cases h₃ : e.spec.elasticsearchRef ≠ none ∧ e.associationResolved = false
          · simp [reconcile, h₁, h₂, h₃] at herr
          · simp [reconcile, h₁, h₂, h₃] at herr

/-- C7 witness: the missing-version scenario of the test. -/
theorem reconcile_invalid_version_witness :
    (reconcile "v1"
        ⟨some ⟨"ns", "sample", [], ⟨"", 0, none, []⟩, false⟩,
          none, none, none, none, none, none, []⟩).error = some validationErrMsg
    ∧ List.IsInfix "spec.version".toList validationErrMsg.toList
    ∧ (reconcile "v1"
        ⟨some ⟨"ns", "sample", [], ⟨"", 0, none, []⟩, false⟩,
          none, none, none, none, none, none, []⟩).events =
      [reconciliationErrorEvent validationErrMsg]
    ∧ List.IsInfix validationErrMsg.toList
        (reconciliationErrorEvent validationErrMsg).toList
    ∧ (reconcile "v1"
        ⟨some ⟨"ns", "sample", [], ⟨"", 0, none, []⟩, false⟩,
          none, none, none, none, none, none, []⟩).writes = 0
    ∧ (reconcile "v1"
        ⟨some ⟨"ns", "sample", [], ⟨"", 0, none, []⟩, false⟩,
          none, none, none, none, none, none, []⟩).state =
      ⟨some ⟨"ns", "sample", [], ⟨"", 0, none, []⟩, false⟩,
        none, none, none, none, none, none, []⟩
    ∧ (∀ opV' s', (reconcile opV' s').error ≠ none →
        ∃ e, s'.owner = some e
          ∧ ¬ lookupKey e.annotations managedAnnKey = some "false"
          ∧ e.spec.version = "") :=
  reconcile_invalid_version "v1"
    ⟨some ⟨"ns", "sample", [], ⟨"", 0, none, []⟩, false⟩,
      none, none, none, none, none, none, []⟩
    ⟨"ns", "sample", [], ⟨"", 0, none, []⟩, false⟩ rfl (by decide) rfl

/-- C2: reconciling twice with no external mutation between the calls leaves
every dependent object identical and performs zero writes on the second call
(the controller-version annotation was already stamped by the first call). -/
theorem reconcile_idempotent (opVersion : String) (s : ClusterState)
    (ent : EnterpriseSearch) (h : s.owner = some ent)
    (hm : ¬ lookupKey ent.annotations managedAnnKey = some "false")
    (hv : ¬ ent.spec.version = "") :
    (reconcile opVersion (reconcile opVersion s).state).state =
      (reconcile opVersion s).state
    ∧ (reconcile opVersion (reconcile opVersion s).state).writes = 0 := by
  have hm' : ¬ lookupKey ((stampVersion opVersion ent).1).annotations
      managedAnnKey = some "false" := by
    rw [stampVersion_fst_managed]
    exact hm
  have hv' : ¬ ((stampVersion opVersion ent).1).spec.version = "" := by
    rw [stampVersion_fst_spec]
    exact hv
  have hst : stampVersion opVersion ((stampVersion opVersion ent).1) =
      ((stampVersion opVersion ent).1, 0) := stampVersion_idem opVersion ent
  by_cases ha : ent.spec.elasticsearchRef ≠ none ∧ ent.associationResolved = false
  · have ha' : ((stampVersion opVersion ent).1).spec.elasticsearchRef ≠ none
        ∧ ((stampVersion opVersion ent).1).associationResolved = false := by
      rw [stampVersion_fst_spec, stampVersion_fst_assoc]
      exact ha
    rw [reconcile_assoc_path opVersion s ent h hm hv ha]
    rw [reconcile_assoc_path opVersion _ ((stampVersion opVersion ent).1) rfl
      hm' hv' ha']
    rw [hst]
    exact ⟨rfl, rfl⟩
  · have ha' : ¬ (((stampVersion opVersion ent).1).spec.elasticsearchRef ≠ none
        ∧ ((stampVersion opVersion ent).1).associationResolved = false) := by
      rw [stampVersion_fst_spec, stampVersion_fst_assoc]
      exact ha
    obtain ⟨d1, d2, d3, d4, d5, d6⟩ := desired_after_stamp opVersion ent
    rw [reconcile_main_path opVersion s ent h hm hv ha]
    rw [reconcile_main_path opVersion _ ((stampVersion opVersion ent).1) rfl
      hm' hv' ha']
    rw [hst, d1, d2, d3, d4, d5, d6, stampVersion_fst_spec]
    simp [convergeDependent_self]

/-- C2 witness: twice-reconciling a fresh sample owner. -/
theorem reconcile_idempotent_witness :
    (reconcile "1.0.0"
        (reconcile "1.0.0"
          ⟨some ⟨"ns", "sample", [], ⟨"7.7.0", 3, none, []⟩, false⟩,
            none, none, none, none, none, none, []⟩).state).state =
      (reconcile "1.0.0"
        ⟨some ⟨"ns", "sample", [], ⟨"7.7.0", 3, none, []⟩, false⟩,
          none, none, none, none, none, none, []⟩).state
    ∧ (reconcile "1.0.0"
        (reconcile "1.0.0"
          ⟨some ⟨"ns", "sample", [], ⟨"7.7.0", 3, none, []⟩, false⟩,
            none, none, none, none, none, none, []⟩).state).writes = 0 :=
  reconcile_idempotent "1.0.0"
    ⟨some ⟨"ns", "sample", [], ⟨"7.7.0", 3, none, []⟩, false⟩,
      none, none, none, none, none, none, []⟩
    ⟨"ns", "sample", [], ⟨"7.7.0", 3, none, []⟩, false⟩
    rfl (by decide) (by decide)

/-- C3: whatever state the dependents were left in (mutated or deleted), a
reconcile pass of a valid, managed, association-ready owner restores every
dependent to the desired state derived from the current spec. -/
theorem reconcile_restores_dependents (opVersion : String) (s : ClusterState)
    (ent : EnterpriseSearch) (h : s.owner = some ent)
    (hm : ¬ lookupKey ent.annotations managedAnnKey = some "false")
    (hv : ¬ ent.spec.version = "")
    (ha : ¬ (ent.spec.elasticsearchRef ≠ none ∧ ent.associationResolved = false)) :
    (reconcile opVersion s).state.service = some (desiredService ent)
    ∧ (reconcile opVersion s).state.caSecret = some (desiredCASecret ent)
    ∧ (reconcile opVersion s).state.internalCertsSecret =
        some (desiredInternalCertsSecret ent)
    ∧ (reconcile opVersion s).state.publicCertsSecret =
        some (desiredPublicCertsSecret ent)
    ∧ (reconcile opVersion s).state.configSecret = some (desiredConfigSecret ent)
    ∧ (reconcile opVersion s).state.deployment = some (desiredDeployment ent) := by
  rw [reconcile_main_path opVersion s ent h hm hv ha]
  exact ⟨rfl, rfl, rfl, rfl, rfl, rfl⟩

/-- C3 witness: the drifted state of the test (replicas reverted to 2,
service deleted, config data and internal cert data cleared) is restored. -/
theorem reconcile_restores_dependents_witness :
    (reconcile "1.0.0"
        ⟨some ⟨"ns", "sample", [], ⟨"7.7.0", 3, none, []⟩, false⟩,
          none,
          some (desiredCASecret ⟨"ns", "sample", [], ⟨"7.7.0", 3, none, []⟩, false⟩),
          some ⟨internalCertsSecretName "sample", []⟩,
          some (desiredPublicCertsSecret
            ⟨"ns", "sample", [], ⟨"7.7.0", 3, none, []⟩, false⟩),
          some ⟨configSecretName "sample", []⟩,
          some ⟨deploymentName "sample", 2, []⟩,
          []⟩).state.service =
      some (desiredService ⟨"ns", "sample", [], ⟨"7.7.0", 3, none, []⟩, false⟩)
    ∧ (reconcile "1.0.0"
        ⟨some ⟨"ns", "sample", [], ⟨"7.7.0", 3, none, []⟩, false⟩,
          none,
          some (desiredCASecret ⟨"ns", "sample", [], ⟨"7.7.0", 3, none, []⟩, false⟩),
          some ⟨internalCertsSecretName "sample", []⟩,
          some (desiredPublicCertsSecret
            ⟨"ns", "sample", [], ⟨"7.7.0", 3, none, []⟩, false⟩),
          some ⟨configSecretName "sample", []⟩,
          some ⟨deploymentName "sample", 2, []⟩,
          []⟩).state.caSecret =
      some (desiredCASecret ⟨"ns", "sample", [], ⟨"7.7.0", 3, none, []⟩, false⟩)
    ∧ (reconcile "1.0.0"
        ⟨some ⟨"ns", "sample", [], ⟨"7.7.0", 3, none, []⟩, false⟩,
          none,
          some (desiredCASecret ⟨"ns", "sample", [], ⟨"7.7.0", 3, none, []⟩, false⟩),
          some ⟨internalCertsSecretName "sample", []⟩,
          some (desiredPublicCertsSecret
            ⟨"ns", "sample", [], ⟨"7.7.0", 3, none, []⟩, false⟩),
          some ⟨configSecretName "sample", []⟩,
          some ⟨deploymentName "sample", 2, []⟩,
          []⟩).state.internalCertsSecret =
      some (desiredInternalCertsSecret
        ⟨"ns", "sample", [], ⟨"7.7.0", 3, none, []⟩, false⟩)
    ∧ (reconcile "1.0.0"
        ⟨some ⟨"ns", "sample", [], ⟨"7.7.0", 3, none, []⟩, false⟩,
          none,
          some (desiredCASecret ⟨"ns", "sample", [], ⟨"7.7.0", 3, none, []⟩, false⟩),
          some ⟨internalCertsSecretName "sample", []⟩,
          some (desiredPublicCertsSecret
            ⟨"ns", "sample", [], ⟨"7.7.0", 3, none, []⟩, false⟩),
          some ⟨configSecretName "sample", []⟩,
          some ⟨deploymentName "sample", 2, []⟩,
          []⟩).state.publicCertsSecret =
      some (desiredPublicCertsSecret
        ⟨"ns", "sample", [], ⟨"7.7.0", 3, none, []⟩, false⟩)
    ∧ (reconcile "1.0.0"
        ⟨some ⟨"ns", "sample", [], ⟨"7.7.0", 3, none, []⟩, false⟩,
          none,
          some (desiredCASecret ⟨"ns", "sample", [], ⟨"7.7.0", 3, none, []⟩, false⟩),
          some ⟨internalCertsSecretName "sample", []⟩,
          some (desiredPublicCertsSecret
            ⟨"ns", "sample", [], ⟨"7.7.0", 3, none, []⟩, false⟩),
          some ⟨configSecretName "sample", []⟩,
          some ⟨deploymentName "sample", 2, []⟩,
          []⟩).state.configSecret =
      some (desiredConfigSecret ⟨"ns", "sample", [], ⟨"7.7.0", 3, none, []⟩, false⟩)
    ∧ (reconcile "1.0.0"
        ⟨some ⟨"ns", "sample", [], ⟨"7.7.0", 3, none, []⟩, false⟩,
          none,
          some (desiredCASecret ⟨"ns", "sample", [], ⟨"7.7.0", 3, none, []⟩, false⟩),
          some ⟨internalCertsSecretName "sample", []⟩,
          some (desiredPublicCertsSecret
            ⟨"ns", "sample", [], ⟨"7.7.0", 3, none, []⟩, false⟩),
          some ⟨configSecretName "sample", []⟩,
          some ⟨deploymentName "sample", 2, []⟩,
          []⟩).state.deployment =
      some (desiredDeployment ⟨"ns", "sample", [], ⟨"7.7.0", 3, none, []⟩, false⟩) :=
  reconcile_restores_dependents "1.0.0"
    ⟨some ⟨"ns", "sample", [], ⟨"7.7.0", 3, none, []⟩, false⟩,
      none,
      some (desiredCASecret ⟨"ns", "sample", [], ⟨"7.7.0", 3, none, []⟩, false⟩),
      some ⟨internalCertsSecretName "sample", []⟩,
      some (desiredPublicCertsSecret
        ⟨"ns", "sample", [], ⟨"7.7.0", 3, none, []⟩, false⟩),
      some ⟨configSecretName "sample", []⟩,
      some ⟨deploymentName "sample", 2, []⟩,
      []⟩
    ⟨"ns", "sample", [], ⟨"7.7.0", 3, none, []⟩, false⟩
    rfl (by decide) (by decide) (by decide)

/-- The concrete first-pass scenario of the reconciler test: version 7.7.0,
three replicas, no backend reference, empty cluster. -/
def scenarioState : ClusterState :=
  ⟨some ⟨"ns", "sample", [], ⟨"7.7.0", 3, none, []⟩, false⟩,
    none, none, none, none, none, none, []⟩

set_option maxRecDepth 10000 in
/-- C4: the first reconcile of a 7.7.0, 3-replica owner succeeds and creates
the service on the well-known port 3002, a non-empty CA secret, non-empty
internal and public TLS cert secrets, a configuration secret whose rendered
content contains "external_url:", and a 3-replica deployment carrying a
non-empty configuration-hash label; the requeue-after is non-zero. -/
theorem reconcile_first_pass_scenario :
    (reconcile "1.0.0" scenarioState).error = none
    ∧ (reconcile "1.0.0" scenarioState).requeueAfter ≠ 0
    ∧ (reconcile "1.0.0" scenarioState).state.service =
        some ⟨"sample-ent-http", 3002⟩
    ∧ (reconcile "1.0.0" scenarioState).state.caSecret.isSome = true
    ∧ ((reconcile "1.0.0" scenarioState).state.caSecret.getD ⟨"", []⟩).data ≠ []
    ∧ ((reconcile "1.0.0" scenarioState).state.caSecret.getD ⟨"", []⟩).name =
        "sample-ent-http-ca-internal"
    ∧ ((reconcile "1.0.0" scenarioState).state.internalCertsSecret.getD
        ⟨"", []⟩).data ≠ []
    ∧ ((reconcile "1.0.0" scenarioState).state.internalCertsSecret.getD
        ⟨"", []⟩).name = "sample-ent-http-certs-internal"
    ∧ ((reconcile "1.0.0" scenarioState).state.publicCertsSecret.getD
        ⟨"", []⟩).data ≠ []
    ∧ ((reconcile "1.0.0" scenarioState).state.publicCertsSecret.getD
        ⟨"", []⟩).name = "sample-ent-http-certs-public"
    ∧ ((reconcile "1.0.0" scenarioState).state.configSecret.getD
        ⟨"", []⟩).name = "sample-ent-config"
    ∧ List.IsInfix "external_url:".toList
        ((lookupKey ((reconcile "1.0.0" scenarioState).state.configSecret.getD
            ⟨"", []⟩).data "enterprise-search.yml").getD "").toList
    ∧ ((reconcile "1.0.0" scenarioState).state.deployment.getD
        ⟨"", 0, []⟩).replicas = 3
    ∧ ((reconcile "1.0.0" scenarioState).state.deployment.getD
        ⟨"", 0, []⟩).name = "sample-ent"
    ∧ (lookupKey ((reconcile "1.0.0" scenarioState).state.deployment.getD
        ⟨"", 0, []⟩).podTemplateLabels configHashLabelKey).getD "" ≠ "" := by
  decide

/-- C9 counterexample: the workload deployment's name is not the bare owner
name; for an owner named "sample" it is "sample-ent". -/
theorem deploymentName_not_bare : deploymentName "sample" ≠ "sample" := by
  decide

/-- C9 (amended): every dependent name is the owner name followed by a fixed
per-kind suffix string; the deployment's suffix is "-ent" (the bare product
suffix), not empty. -/
theorem dependent_names_deterministic (n : String) :
    httpServiceName n = n ++ "-ent-http"
    ∧ caSecretName n = n ++ "-ent-http-ca-internal"
    ∧ internalCertsSecretName n = n ++ "-ent-http-certs-internal"
    ∧ publicCertsSecretName n = n ++ "-ent-http-certs-public"
    ∧ configSecretName n = n ++ "-ent-config"
    ∧ deploymentName n = n ++ "-ent" :=
  ⟨String.append_assoc n "-" "ent-http",
    String.append_assoc n "-" "ent-http-ca-internal",
    String.append_assoc n "-" "ent-http-certs-internal",
    String.append_assoc n "-" "ent-http-certs-public",
    String.append_assoc n "-" "ent-config",
    String.append_assoc n "-" "ent"⟩
